import Mathlib

/-!
Verification of the donation-matching core of the Alagad Depot repository.

The definitions below are a shallow embedding of the matching/scoring engine
(`findMatchesForRecipient`, `findRecipientsForDonation`, `calculateDistance`
from `src/lib/api.ts`), of the donation store lookup (`fetchDonationById`,
modelled as a search over an explicit list of known donations), and of the
status-timeline deriver (`generateStatusTimeline` from the donation tracker
component).

Modelling conventions:
* JavaScript numbers holding timestamps, day counts and coordinates are
  modelled as rationals (`ℚ`); the trigonometric Haversine distance is
  modelled over the reals (`ℝ`).  `Math.round` is `round` (`⌊x + 1/2⌋`,
  half-up, identical to JavaScript's behaviour on the values in scope).
* Timestamps are epoch milliseconds; `Date.now()` becomes an explicit
  `now : ℚ` parameter, and `new Date(d.date).getTime()` is the `date` field.
* Optional fields (`latitude`, `longitude`, `location`, `urgency`,
  `maxDistance`) are `Option`s.  JavaScript truthiness tests on numbers
  (`donation.latitude && donation.longitude`, `maxDistance || 50`) are
  modelled as "present and nonzero".
* The asynchronous wrappers, caching and `localStorage` plumbing around the
  scoring code only supply the candidate lists; they are modelled by passing
  the candidate/store lists explicitly.
-/

/-- Listing lifecycle status of a donation (`"active" | "completed" | "urgent"`). -/
inductive DStatus where
  | active
  | completed
  | urgent
deriving DecidableEq

/-- Urgency preference of a recipient (`"high" | "medium" | "low"`). -/
inductive Urgency where
  | high
  | medium
  | low
deriving DecidableEq

/-- A latitude/longitude pair, in decimal degrees. -/
structure GeoPoint where
  latitude : ℚ
  longitude : ℚ
deriving DecidableEq

/-- A donation record (the `ScrapedDonation` / `DonationData` shape).  The
`date` field is the listing timestamp in epoch milliseconds; coordinates are
optional, as in the source where `latitude`/`longitude` may be `undefined`. -/
structure Donation where
  id : String
  title : String
  description : String
  category : String
  source : String
  organization : String
  contactInfo : String
  date : ℚ
  status : DStatus
  latitude : Option ℚ
  longitude : Option ℚ
deriving DecidableEq

/-- The `UserNeedsPreferences` interface. -/
structure UserNeedsPreferences where
  userId : String
  categories : List String
  locationScope : String
  location : Option GeoPoint
  urgency : Option Urgency
  maxDistance : Option ℚ
deriving DecidableEq

/-- The `MatchResult` interface. -/
structure MatchResult where
  donationId : String
  recipientId : String
  score : ℤ
  matchReason : List String
deriving DecidableEq

/-- Milliseconds in an hour. -/
def msPerHour : ℚ := 1000 * 60 * 60

/-- Milliseconds in a day (`1000 * 60 * 60 * 24`). -/
def msPerDay : ℚ := 1000 * 60 * 60 * 24

/-- Degree-to-radian conversion: `deg * (Math.PI / 180)`. -/
noncomputable def deg2rad (deg : ℝ) : ℝ := deg * (Real.pi / 180)

/-- Model of JavaScript's `Math.atan2 y x` (result in `(-π, π]`, with
`atan2 0 0 = 0` as for the positive-zero arguments that can arise here). -/
noncomputable def atan2 (y x : ℝ) : ℝ :=
  if 0 < x then Real.arctan (y / x)
  else if x < 0 then
    (if 0 ≤ y then Real.arctan (y / x) + Real.pi else Real.arctan (y / x) - Real.pi)
  else if 0 < y then Real.pi / 2
  else if y < 0 then -(Real.pi / 2)
  else 0

/-- The intermediate value `a` of the Haversine formula in `calculateDistance`:
`sin²(dLat/2) + cos(lat1)·cos(lat2)·sin²(dLon/2)` with all angles in radians. -/
noncomputable def haversineA (lat1 lon1 lat2 lon2 : ℝ) : ℝ :=
  Real.sin (deg2rad (lat2 - lat1) / 2) * Real.sin (deg2rad (lat2 - lat1) / 2) +
    Real.cos (deg2rad lat1) * Real.cos (deg2rad lat2) *
      (Real.sin (deg2rad (lon2 - lon1) / 2) * Real.sin (deg2rad (lon2 - lon1) / 2))

/-- `calculateDistance` (Haversine great-circle distance, km):
`R = 6371`, `c = 2 * atan2(√a, √(1-a))`, distance `R * c`. -/
noncomputable def calculateDistance (lat1 lon1 lat2 lon2 : ℝ) : ℝ :=
  6371 * (2 * atan2 (Real.sqrt (haversineA lat1 lon1 lat2 lon2))
    (Real.sqrt (1 - haversineA lat1 lon1 lat2 lon2)))

/-- Category rule score: `+30` iff `donation.category ∈ needs.categories`. -/
def categoryScore (cats : List String) (d : Donation) : ℤ :=
  if d.category ∈ cats then 30 else 0

/-- Category rule reason strings (pushed under the same guard as the score). -/
def categoryReasons (cats : List String) (d : Donation) : List String :=
  if d.category ∈ cats then ["Category match: " ++ d.category] else []

/-- Urgency rule score: `+25` iff `needs.urgency === "high"` and
`donation.status === "urgent"`. -/
def urgencyScore (u : Option Urgency) (d : Donation) : ℤ :=
  if u = some Urgency.high ∧ d.status = DStatus.urgent then 25 else 0

/-- Urgency rule reason strings. -/
def urgencyReasons (u : Option Urgency) (d : Donation) : List String :=
  if u = some Urgency.high ∧ d.status = DStatus.urgent then
    ["Urgent donation matches high urgency need"] else []

/-- `recipientNeeds.maxDistance || 50`: `undefined` and the falsy value `0`
both yield the 50 km default. -/
def effectiveMaxDistance (m : Option ℚ) : ℚ :=
  match m with
  | none => 50
  | some v => if v = 0 then 50 else v

/-- The guard and intermediate data of the location-proximity rule: when
`recipientNeeds.location && donation.latitude && donation.longitude` all pass
truthiness (zero coordinates are falsy) and the computed distance is within
the effective max distance, return the distance and the effective max. -/
noncomputable def locationHit (loc : Option GeoPoint) (maxD : Option ℚ)
    (d : Donation) : Option (ℝ × ℚ) :=
  match loc, d.latitude, d.longitude with
  | some l, some lat, some lon =>
    if lat = 0 ∨ lon = 0 then none
    else
      let distance := calculateDistance (l.latitude : ℝ) (l.longitude : ℝ)
        (lat : ℝ) (lon : ℝ)
      let m := effectiveMaxDistance maxD
      if distance ≤ (m : ℝ) then some (distance, m) else none
  | _, _, _ => none

/-- Location-proximity rule score: `Math.round(25 * (1 - distance/maxDistance))`
when the rule fires, else `0`. -/
noncomputable def locationScore (loc : Option GeoPoint) (maxD : Option ℚ)
    (d : Donation) : ℤ :=
  match locationHit loc maxD d with
  | some (dist, m) => round ((25 : ℝ) * (1 - dist / (m : ℝ)))
  | none => 0

/-- Location-proximity rule reason strings. -/
noncomputable def locationReasons (loc : Option GeoPoint) (maxD : Option ℚ)
    (d : Donation) : List String :=
  match locationHit loc maxD d with
  | some (dist, _) =>
    ["Location proximity: " ++ toString (round dist) ++ "km away"]
  | none => []

/-- Recency rule score: with `daysSince = (now - date) / (1000*60*60*24)`,
award `Math.round(20 * (1 - daysSince/7))` iff `daysSince ≤ 7`. -/
def recencyScore (now : ℚ) (d : Donation) : ℤ :=
  let daysSince := (now - d.date) / msPerDay
  if daysSince ≤ 7 then round ((20 : ℚ) * (1 - daysSince / 7)) else 0

/-- Recency rule reason strings. -/
def recencyReasons (now : ℚ) (d : Donation) : List String :=
  if (now - d.date) / msPerDay ≤ 7 then ["Recently listed donation"] else []

/-- The per-candidate body of `findMatchesForRecipient`: starting from
`score = 0` and `matchReasons = []`, the category, urgency, location and
recency rules each add their contribution and push their reason in order. -/
noncomputable def scoreDonationForRecipient (needs : UserNeedsPreferences)
    (now : ℚ) (d : Donation) : MatchResult :=
  { donationId := d.id
    recipientId := needs.userId
    score := categoryScore needs.categories d + urgencyScore needs.urgency d +
      locationScore needs.location needs.maxDistance d + recencyScore now d
    matchReason := categoryReasons needs.categories d ++
      urgencyReasons needs.urgency d ++
      locationReasons needs.location needs.maxDistance d ++
      recencyReasons now d }

/-- The comparator `(a, b) => b.score - a.score`: `a` may precede `b` iff
`b.score ≤ a.score` (descending by score). -/
def scoreGE (a b : MatchResult) : Prop := b.score ≤ a.score

instance : DecidableRel scoreGE :=
  fun a b => inferInstanceAs (Decidable (b.score ≤ a.score))

instance : IsTotal MatchResult scoreGE :=
  ⟨fun a b => le_total b.score a.score⟩

instance : IsTrans MatchResult scoreGE :=
  ⟨fun _ _ _ hab hbc => le_trans hbc hab⟩

/-- `findMatchesForRecipient`: score every candidate donation, keep only
results with `score > 30`, and stably sort descending by score (JavaScript's
`Array.prototype.sort` is stable). -/
noncomputable def findMatchesForRecipient (needs : UserNeedsPreferences)
    (now : ℚ) (candidates : List Donation) : List MatchResult :=
  List.insertionSort scoreGE
    (((candidates.map (scoreDonationForRecipient needs now)).filter
      (fun m => 30 < m.score)))

/-- The per-recipient body of `findRecipientsForDonation`: category, urgency
and location rules only — no recency rule. -/
noncomputable def scoreRecipientForDonation (d : Donation)
    (r : UserNeedsPreferences) : MatchResult :=
  { donationId := d.id
    recipientId := r.userId
    score := categoryScore r.categories d + urgencyScore r.urgency d +
      locationScore r.location r.maxDistance d
    matchReason := categoryReasons r.categories d ++
      urgencyReasons r.urgency d ++
      locationReasons r.location r.maxDistance d }

/-- `findRecipientsForDonation`: resolve the donation by id over the known
store (`fetchDonationById`); an unknown id yields `[]`; otherwise score all
candidate recipients, filter `score > 30` and stably sort descending. -/
noncomputable def findRecipientsForDonation (store : List Donation)
    (donationId : String) (prefs : List UserNeedsPreferences) :
    List MatchResult :=
  match store.find? (fun d => d.id == donationId) with
  | none => []
  | some donation =>
    List.insertionSort scoreGE
      ((prefs.map (scoreRecipientForDonation donation)).filter
        (fun m => 30 < m.score))

/-- The five tracking stages used by the status timeline
(`active`/`matched`/`urgent`/`arranged`/`completed` status items). -/
inductive Stage where
  | active
  | matched
  | urgent
  | arranged
  | completed
deriving DecidableEq

/-- A status-timeline entry.  The source stores display-formatted date
strings; the `timestamp` here is the underlying epoch-millisecond value from
which those strings are formatted. -/
structure StatusItem where
  id : String
  status : Stage
  title : String
  description : String
  timestamp : ℚ
  user : String
deriving DecidableEq

/-- `generateStatusTimeline`: from the donation's status and listing date,
emit the listed event, then conditionally the matched, urgent, arranged and
completed events exactly as in the source. -/
def generateStatusTimeline (now : ℚ) (d : Donation) : List StatusItem :=
  let baseDate := d.date
  let listedItem : StatusItem :=
    { id := "1", status := Stage.active, title := "Donation Listed"
      description := d.title ++ " has been listed for donation."
      timestamp := d.date, user := d.organization }
  let matchedDate := baseDate + 12 * msPerHour
  let items1 :=
    if matchedDate ≤ now ∨ d.status = DStatus.urgent ∨
        d.status = DStatus.completed then
      [listedItem] ++
        [{ id := "2", status := Stage.matched
           title := "Potential Recipients Found"
           description := "Potential recipients for " ++ d.title ++
             " have been identified."
           timestamp := matchedDate, user := "System" }]
    else [listedItem]
  let urgentDate := baseDate + 24 * msPerHour
  let arrangedDate := urgentDate + 6 * msPerHour
  let items2 :=
    if d.status = DStatus.urgent then
      (items1 ++
        [{ id := "3", status := Stage.urgent
           title := "Urgent Need Identified"
           description := "This donation has been marked as urgent by " ++
             d.organization ++ "."
           timestamp := urgentDate, user := d.organization }]) ++
        (if arrangedDate ≤ now ∨ d.status = DStatus.completed then
          [{ id := "4", status := Stage.arranged
             title := "Pickup/Delivery Arranged"
             description := "Logistics for " ++ d.title ++
               " have been arranged."
             timestamp := arrangedDate, user := "Logistics Team" }]
        else [])
    else items1
  let completedDate := baseDate + 7 * msPerDay
  if d.status = DStatus.completed then
    items2 ++
      [{ id := "5", status := Stage.completed
         title := "Donation Completed"
         description := "The donation to " ++ d.organization ++
           " has been successfully completed."
         timestamp := completedDate, user := d.organization }]
  else items2

/-! ### Concrete inputs used by witnesses and counterexamples -/

/-- A disaster-category urgent donation listed at time `0`, no coordinates. -/
def dDisaster : Donation :=
  { id := "d1", title := "Relief Goods", description := "desc"
    category := "disaster", source := "src", organization := "Org"
    contactInfo := "contact", date := 0, status := DStatus.urgent
    latitude := none, longitude := none }

/-- A recipient interested in `disaster` with high urgency, no location. -/
def needsHigh : UserNeedsPreferences :=
  { userId := "r1", categories := ["disaster"], locationScope := "worldwide"
    location := none, urgency := some Urgency.high, maxDistance := none }

/-- The match produced for `needsHigh` against `dDisaster` at `now = 0`:
30 (category) + 25 (urgency) + 20 (recency) = 75, three reasons. -/
def mW : MatchResult :=
  { donationId := "d1", recipientId := "r1", score := 75
    matchReason := ["Category match: disaster",
      "Urgent donation matches high urgency need", "Recently listed donation"] }

/-- The match produced in the donation direction for `dDisaster` against
`needsHigh`: 30 (category) + 25 (urgency) = 55, two reasons, no recency. -/
def mS : MatchResult :=
  { donationId := "d1", recipientId := "r1", score := 55
    matchReason := ["Category match: disaster",
      "Urgent donation matches high urgency need"] }

/-- Exactly seven days, in milliseconds. -/
def sevenDaysMs : ℚ := 7 * msPerDay

/-- A donation dated 14 days in the future relative to `now = 0`. -/
def dFuture : Donation := { dDisaster with date := 14 * msPerDay }

/-- The match produced for `needsHigh` against `dDisaster` when `now` is
exactly seven days after the listing date: the recency rule fires with a
rounded contribution of 0, yet still pushes its reason string. -/
def mBoundary : MatchResult :=
  { donationId := "d1", recipientId := "r1", score := 55
    matchReason := ["Category match: disaster",
      "Urgent donation matches high urgency need", "Recently listed donation"] }

/-- A completed donation listed at 2023-01-01T00:00:00Z (epoch ms). -/
def dCompleted : Donation :=
  { dDisaster with status := DStatus.completed, date := 1672531200000 }

/-- A donation whose latitude is exactly 0 (a valid equator coordinate). -/
def dZeroLat : Donation :=
  { dDisaster with latitude := some 0, longitude := some 120 }

/-- A recipient with a location, so that only the donation side can make the
location rule skip. -/
def needsLoc : UserNeedsPreferences :=
  { needsHigh with location := some { latitude := 14, longitude := 121 } }

/-- The `listed` event of `dCompleted`'s timeline. -/
def listedC9 : StatusItem :=
  { id := "1", status := Stage.active, title := "Donation Listed"
    description := "Relief Goods has been listed for donation."
    timestamp := 1672531200000, user := "Org" }

/-- The `matched` event of `dCompleted`'s timeline, at `date + 12h`. -/
def matchedC9 : StatusItem :=
  { id := "2", status := Stage.matched, title := "Potential Recipients Found"
    description := "Potential recipients for Relief Goods have been identified."
    timestamp := 1672574400000, user := "System" }

/-- The `completed` event of `dCompleted`'s timeline, at `date + 7 days`
(2023-01-08T00:00:00Z). -/
def completedC9 : StatusItem :=
  { id := "5", status := Stage.completed, title := "Donation Completed"
    description := "The donation to Org has been successfully completed."
    timestamp := 1673136000000, user := "Org" }

/-! ### Helper lemmas -/

/-- Membership in the recipient-direction result list is: produced by scoring
some candidate, and scoring strictly above 30. -/
theorem mem_findMatchesForRecipient {needs : UserNeedsPreferences} {now : ℚ}
    {candidates : List Donation} {m : MatchResult} :
    m ∈ findMatchesForRecipient needs now candidates ↔
      (∃ d ∈ candidates, scoreDonationForRecipient needs now d = m) ∧
        30 < m.score := by
  unfold findMatchesForRecipient
  rw [(List.perm_insertionSort scoreGE _).mem_iff]
  simp [List.mem_filter]

/-- Membership in the donation-direction result list is: the id resolved to a
stored donation, the result scores some candidate recipient, and strictly
above 30. -/
theorem mem_findRecipientsForDonation {store : List Donation} {i : String}
    {prefs : List UserNeedsPreferences} {m : MatchResult} :
    m ∈ findRecipientsForDonation store i prefs ↔
      ∃ don, store.find? (fun d => d.id == i) = some don ∧
        (∃ r ∈ prefs, scoreRecipientForDonation don r = m) ∧ 30 < m.score := by
  unfold findRecipientsForDonation
  cases h : store.find? (fun d => d.id == i) with
  | none => simp
  | some don =>
    rw [(List.perm_insertionSort scoreGE _).mem_iff]
    simp [List.mem_filter]

/-- Filtering on an exact score commutes with `orderedInsert`: the inserted
element lands before exactly the strictly-smaller scores, so among elements of
any one score the original order is kept. -/
theorem filter_score_orderedInsert (s : ℤ) (a : MatchResult)
    (l : List MatchResult) :
    (List.orderedInsert scoreGE a l).filter (fun x => x.score = s) =
      ((a :: l).filter (fun x => x.score = s)) := by
  induction l with
  | nil => rfl
  | cons b t ih =>
    by_cases hr : scoreGE a b
    · rw [List.orderedInsert, if_pos hr]
    · rw [List.orderedInsert, if_neg hr]
      have hab : a.score < b.score := lt_of_not_le hr
      by_cases hb : b.score = s
      · have ha : ¬ (a.score = s) := by
          intro h
          exact absurd (hb.trans h.symm) (ne_of_gt hab)
        simp only [List.filter_cons, ih, ha, hb]
        simp [ha, hb]
      · simp only [List.filter_cons]
        simp only [ih]
        simp [List.filter_cons, hb]

/-- The stable-sort property of `insertionSort` under `scoreGE`: restricting
to any one score value returns the input order unchanged. -/
theorem filter_score_insertionSort (s : ℤ) (l : List MatchResult) :
    (List.insertionSort scoreGE l).filter (fun x => x.score = s) =
      l.filter (fun x => x.score = s) := by
  induction l with
  | nil => rfl
  | cons a t ih =>
    rw [List.insertionSort, filter_score_orderedInsert]
    simp only [List.filter_cons, ih]

/-- Evaluation of the recipient-direction pipeline on the concrete witness
input: the single candidate scores 75 and is returned. -/
theorem eval_findMatches_concrete :
    findMatchesForRecipient needsHigh 0 [dDisaster] = [mW] := by
  have h : scoreDonationForRecipient needsHigh 0 dDisaster = mW := by
    simp [scoreDonationForRecipient, categoryScore, categoryReasons,
      urgencyScore, urgencyReasons, locationScore, locationReasons,
      locationHit, recencyScore, recencyReasons, msPerDay, dDisaster,
      needsHigh, mW]
  simp [findMatchesForRecipient, h, mW, List.insertionSort,
    List.orderedInsert]

/-- Evaluation of the donation-direction pipeline on the concrete witness
input: the donation resolves, and the single recipient scores 55. -/
theorem eval_findRecipients_concrete :
    findRecipientsForDonation [dDisaster] "d1" [needsHigh] = [mS] := by
  have hf : List.find? (fun d => d.id == "d1") [dDisaster] = some dDisaster := by
    simp [List.find?, dDisaster]
  have h : scoreRecipientForDonation dDisaster needsHigh = mS := by
    simp [scoreRecipientForDonation, categoryScore, categoryReasons,
      urgencyScore, urgencyReasons, locationScore, locationReasons,
      locationHit, dDisaster, needsHigh, mS]
  rw [findRecipientsForDonation, hf]
  simp [h, mS, List.insertionSort, List.orderedInsert]

/-! ### Claim theorems -/

/-- Claim C1: every `MatchResult` returned by either scoring direction has
score strictly greater than 30; a candidate whose total score is exactly 30
is never present in the returned list. -/
theorem match_score_above_threshold (needs : UserNeedsPreferences) (now : ℚ)
    (candidates : List Donation) (store : List Donation)
    (donationId : String) (prefs : List UserNeedsPreferences)
    (m : MatchResult) :
    (m ∈ findMatchesForRecipient needs now candidates → 30 < m.score) ∧
    (m ∈ findRecipientsForDonation store donationId prefs → 30 < m.score) := by
  constructor
  · intro h
    exact (mem_findMatchesForRecipient.mp h).2
  · intro h
    obtain ⟨don, _, _, hs⟩ := mem_findRecipientsForDonation.mp h
    exact hs

/-- Witness for C1 at a concrete input: both directions return a result and
the theorem yields its threshold bound there. -/
theorem match_score_above_threshold_witness :
    mW ∈ findMatchesForRecipient needsHigh 0 [dDisaster] ∧ 30 < mW.score ∧
    mS ∈ findRecipientsForDonation [dDisaster] "d1" [needsHigh] ∧
    30 < mS.score := by
  have h1 : mW ∈ findMatchesForRecipient needsHigh 0 [dDisaster] := by
    rw [eval_findMatches_concrete]
    exact List.mem_singleton.mpr rfl
  have h2 : mS ∈ findRecipientsForDonation [dDisaster] "d1" [needsHigh] := by
    rw [eval_findRecipients_concrete]
    exact List.mem_singleton.mpr rfl
  exact ⟨h1,
    (match_score_above_threshold needsHigh 0 [dDisaster] [] "x" [] mW).1 h1,
    h2,
    (match_score_above_threshold needsHigh 0 [] [dDisaster] "d1" [needsHigh]
      mS).2 h2⟩

/-- Claim C3: both result lists are sorted in non-increasing score order
(`Pairwise` gives every adjacent pair `r[i].score ≥ r[i+1].score`), and the
sort is stable: restricting the output to any single score value `s` yields
exactly the threshold-surviving per-candidate results in input order. -/
theorem match_results_sorted_and_stable (needs : UserNeedsPreferences)
    (now : ℚ) (candidates : List Donation) (store : List Donation)
    (donationId : String) (prefs : List UserNeedsPreferences) (s : ℤ) :
    List.Pairwise (fun a b : MatchResult => b.score ≤ a.score)
      (findMatchesForRecipient needs now candidates) ∧
    (findMatchesForRecipient needs now candidates).filter
        (fun m => m.score = s) =
      ((candidates.map (scoreDonationForRecipient needs now)).filter
        (fun m => 30 < m.score)).filter (fun m => m.score = s) ∧
    List.Pairwise (fun a b : MatchResult => b.score ≤ a.score)
      (findRecipientsForDonation store donationId prefs) ∧
    (findRecipientsForDonation store donationId prefs).filter
        (fun m => m.score = s) =
      (match store.find? (fun d : Donation => d.id == donationId) with
        | none => ([] : List MatchResult)
        | some don => (prefs.map (scoreRecipientForDonation don)).filter
            (fun m : MatchResult => 30 < m.score)).filter
        (fun m => m.score = s) := by
  refine ⟨?_, ?_, ?_, ?_⟩
  · exact List.sorted_insertionSort scoreGE _
  · exact filter_score_insertionSort s _
  · unfold findRecipientsForDonation
    cases store.find? (fun d => d.id == donationId) with
    | none => simp
    | some don => exact List.sorted_insertionSort scoreGE _
  · unfold findRecipientsForDonation
    cases store.find? (fun d => d.id == donationId) with
    | none => simp
    | some don => exact filter_score_insertionSort s _

/-- Claim C5: an unknown donation id makes `findRecipientsForDonation` return
the empty list (soft failure; the function is total, so no exception). -/
theorem unknown_donation_id_yields_empty (store : List Donation)
    (donationId : String) (prefs : List UserNeedsPreferences)
    (h : ∀ d ∈ store, d.id ≠ donationId) :
    findRecipientsForDonation store donationId prefs = [] := by
  have hf : store.find? (fun d => d.id == donationId) = none := by
    rw [List.find?_eq_none]
    intro d hd
    simpa using h d hd
  rw [findRecipientsForDonation, hf]

/-- Witness for C5 at a concrete input: the store knows only `"d1"`, so the
id `"nonexistent-id"` resolves to nothing and the result is `[]`. -/
theorem unknown_donation_id_yields_empty_witness :
    findRecipientsForDonation [dDisaster] "nonexistent-id" [needsHigh] = [] :=
  unknown_donation_id_yields_empty [dDisaster] "nonexistent-id" [needsHigh]
    (by
      intro d hd
      rw [List.mem_singleton.mp hd]
      simp [dDisaster])

/-- Claim C2: for needs `{categories:["disaster"], urgency:"high"}` and a
candidate `{category:"disaster", status:"urgent", date:now, no coordinates}`,
the recipient direction yields score `30 + 25 + 20 = 75`, three reasons, and
the result is included in the returned list. -/
theorem category_urgency_recency_stack_scenario (now : ℚ) :
    (findMatchesForRecipient needsHigh now
        [{ dDisaster with date := now }]).map
      (fun m => (m.donationId, m.recipientId, m.score, m.matchReason.length)) =
      [("d1", "r1", (75 : ℤ), 3)] := by
  have h : scoreDonationForRecipient needsHigh now
      { dDisaster with date := now } = mW := by
    simp [scoreDonationForRecipient, categoryScore, categoryReasons,
      urgencyScore, urgencyReasons, locationScore, locationReasons,
      locationHit, recencyScore, recencyReasons, msPerDay, dDisaster,
      needsHigh, mW, sub_self]
  simp [findMatchesForRecipient, h, mW, List.insertionSort,
    List.orderedInsert]

/-- The category rule's reason string never equals the recency reason (it
always starts with a `'C'`). -/
theorem recently_notin_categoryReasons (cats : List String) (d : Donation) :
    "Recently listed donation" ∉ categoryReasons cats d := by
  unfold categoryReasons
  split_ifs with h
  · intro hm
    have he : "Recently listed donation" = "Category match: " ++ d.category :=
      List.mem_singleton.mp hm
    have h2 : ("Category match: " ++ d.category).data.head? = some 'C' := rfl
    rw [← he] at h2
    exact absurd h2 (by decide)
  · simp

/-- The urgency rule's reason string never equals the recency reason. -/
theorem recently_notin_urgencyReasons (u : Option Urgency) (d : Donation) :
    "Recently listed donation" ∉ urgencyReasons u d := by
  unfold urgencyReasons
  split_ifs with h
  · intro hm
    exact absurd (List.mem_singleton.mp hm) (by decide)
  · simp

/-- The location rule's reason string never equals the recency reason (it
always starts with an `'L'`). -/
theorem recently_notin_locationReasons (loc : Option GeoPoint)
    (maxD : Option ℚ) (d : Donation) :
    "Recently listed donation" ∉ locationReasons loc maxD d := by
  unfold locationReasons
  cases h : locationHit loc maxD d with
  | none => simp
  | some p =>
    obtain ⟨dist, mx⟩ := p
    intro hm
    have he : "Recently listed donation" =
        "Location proximity: " ++ toString (round dist) ++ "km away" := by
      simpa using hm
    have h2 : ("Location proximity: " ++ toString (round dist) ++
        "km away").data.head? = some 'L' := rfl
    rw [← he] at h2
    exact absurd h2 (by decide)

/-- Claim C4: the donation direction never applies the recency rule — every
returned score is exactly the category + urgency + location sum for its
candidate recipient, and `"Recently listed donation"` never appears among the
reasons, regardless of the donation's date. -/
theorem donation_direction_omits_recency (store : List Donation)
    (donationId : String) (prefs : List UserNeedsPreferences)
    (m : MatchResult)
    (h : m ∈ findRecipientsForDonation store donationId prefs) :
    "Recently listed donation" ∉ m.matchReason ∧
    ∃ don r, store.find? (fun d => d.id == donationId) = some don ∧
      r ∈ prefs ∧
      m.score = categoryScore r.categories don + urgencyScore r.urgency don +
        locationScore r.location r.maxDistance don := by
  obtain ⟨don, hf, ⟨r, hr, hm⟩, _⟩ := mem_findRecipientsForDonation.mp h
  constructor
  · rw [← hm]
    intro hmem
    rw [scoreRecipientForDonation] at hmem
    simp only [List.mem_append] at hmem
    rcases hmem with (hc | hu) | hl
    · exact absurd hc (recently_notin_categoryReasons _ _)
    · exact absurd hu (recently_notin_urgencyReasons _ _)
    · exact absurd hl (recently_notin_locationReasons _ _ _)
  · exact ⟨don, r, hf, hr, by rw [← hm]; rfl⟩

/-- Witness for C4 at a concrete input: the donation direction returns `mS`,
whose reasons avoid the recency string and whose score is the three-rule sum. -/
theorem donation_direction_omits_recency_witness :
    mS ∈ findRecipientsForDonation [dDisaster] "d1" [needsHigh] ∧
    ("Recently listed donation" ∉ mS.matchReason ∧
      ∃ don r, List.find? (fun d => d.id == "d1") [dDisaster] = some don ∧
        r ∈ [needsHigh] ∧
        mS.score = categoryScore r.categories don +
          urgencyScore r.urgency don +
          locationScore r.location r.maxDistance don) := by
  have h2 : mS ∈ findRecipientsForDonation [dDisaster] "d1" [needsHigh] := by
    rw [eval_findRecipients_concrete]
    exact List.mem_singleton.mpr rfl
  exact ⟨h2, donation_direction_omits_recency [dDisaster] "d1" [needsHigh]
    mS h2⟩

/-- Evaluation rule for `recencyScore`: if the elapsed-days value computes to
`q ≤ 7` and the decayed bonus computes to the integer `n`, the score is `n`. -/
theorem recencyScore_eval (now : ℚ) (d : Donation) (q : ℚ) (n : ℤ)
    (hq : (now - d.date) / msPerDay = q) (hle : q ≤ 7)
    (hn : (20 : ℚ) * (1 - q / 7) = (n : ℚ)) :
    recencyScore now d = n := by
  show (if (now - d.date) / msPerDay ≤ 7 then
    round ((20 : ℚ) * (1 - ((now - d.date) / msPerDay) / 7)) else 0) = n
  rw [hq, if_pos hle, hn, round_intCast]

/-- Claim C6 (failing part): a donation dated 14 days in the future receives
a recency contribution of 60, outside the documented `[0, 20]` range — the
code contradicts its own `up to 20 points` comment on future-dated input. -/
theorem recency_score_exceeds_twenty_on_future_date :
    recencyScore 0 dFuture = 60 ∧ 20 < recencyScore 0 dFuture := by
  have h : recencyScore 0 dFuture = 60 := by
    refine recencyScore_eval 0 dFuture (-14) 60 ?_ (by norm_num) (by norm_num)
    rw [show dFuture.date = 14 * msPerDay from rfl, msPerDay]
    norm_num
  exact ⟨h, by rw [h]; norm_num⟩

/-- Claim C9: for a completed donation listed at 2023-01-01, the timeline is
exactly `listed@2023-01-01`, `matched@2023-01-01+12h`, and
`completed@2023-01-08`, for every value of the clock (the matched and
completed events do not depend on elapsed time when the status is
`completed`), with no urgent or arranged events. -/
theorem completed_timeline_scenario (now : ℚ) :
    generateStatusTimeline now dCompleted =
      [listedC9, matchedC9, completedC9] := by
  simp only [generateStatusTimeline, dCompleted, dDisaster,
    listedC9, matchedC9, completedC9]
  norm_num [msPerHour, msPerDay]
  simp

/-- A zero coordinate fails the JavaScript truthiness test, so the location
rule's guard never fires. -/
theorem locationHit_none_of_zero (loc : Option GeoPoint) (maxD : Option ℚ)
    (d : Donation) (h : d.latitude = some 0 ∨ d.longitude = some 0) :
    locationHit loc maxD d = none := by
  unfold locationHit
  rcases h with h | h
  · rw [h]
    cases loc with
    | none => rfl
    | some l =>
      cases hl : d.longitude with
      | none => rfl
      | some lon => exact if_pos (Or.inl rfl)
  · rw [h]
    cases loc with
    | none => rfl
    | some l =>
      cases hl : d.latitude with
      | none => rfl
      | some lat => exact if_pos (Or.inr rfl)

/-- Erasing both coordinates also makes the location guard fail. -/
theorem locationHit_none_erased (loc : Option GeoPoint) (maxD : Option ℚ)
    (d : Donation) :
    locationHit loc maxD
      { d with latitude := none, longitude := none } = none := by
  unfold locationHit
  cases loc <;> rfl

/-- Claim C10: a donation with latitude or longitude exactly 0 is treated by
both scoring directions exactly like a donation with no coordinates at all
(the guard tests numeric truthiness, so the location rule is skipped even
when the recipient's location is present). -/
theorem zero_coordinate_skips_location_rule (needs : UserNeedsPreferences)
    (now : ℚ) (d : Donation) (r : UserNeedsPreferences)
    (h : d.latitude = some 0 ∨ d.longitude = some 0) :
    locationHit needs.location needs.maxDistance d = none ∧
    scoreDonationForRecipient needs now d =
      scoreDonationForRecipient needs now
        { d with latitude := none, longitude := none } ∧
    scoreRecipientForDonation d r =
      scoreRecipientForDonation
        { d with latitude := none, longitude := none } r := by
  refine ⟨locationHit_none_of_zero _ _ _ h, ?_, ?_⟩
  · simp [scoreDonationForRecipient, locationScore, locationReasons,
      locationHit_none_of_zero needs.location needs.maxDistance d h,
      locationHit_none_erased, categoryScore, categoryReasons, urgencyScore,
      urgencyReasons, recencyScore, recencyReasons]
  · simp [scoreRecipientForDonation, locationScore, locationReasons,
      locationHit_none_of_zero r.location r.maxDistance d h,
      locationHit_none_erased, categoryScore, categoryReasons, urgencyScore,
      urgencyReasons]

/-- Witness for C10 at a concrete input: latitude exactly 0 with a recipient
that does have a location. -/
theorem zero_coordinate_skips_location_rule_witness :
    (dZeroLat.latitude = some 0 ∨ dZeroLat.longitude = some 0) ∧
    (locationHit needsLoc.location needsLoc.maxDistance dZeroLat = none ∧
    scoreDonationForRecipient needsLoc 0 dZeroLat =
      scoreDonationForRecipient needsLoc 0
        { dZeroLat with latitude := none, longitude := none } ∧
    scoreRecipientForDonation dZeroLat needsLoc =
      scoreRecipientForDonation
        { dZeroLat with latitude := none, longitude := none } needsLoc) :=
  ⟨Or.inl rfl,
    zero_coordinate_skips_location_rule needsLoc 0 dZeroLat needsLoc
      (Or.inl rfl)⟩

/-- The Haversine intermediate value is symmetric in its two points: the
half-angle sines are squared, so the sign of the differences cancels, and the
cosine product commutes. -/
theorem haversineA_symm (lat1 lon1 lat2 lon2 : ℝ) :
    haversineA lat1 lon1 lat2 lon2 = haversineA lat2 lon2 lat1 lon1 := by
  unfold haversineA deg2rad
  have h1 : Real.sin ((lat2 - lat1) * (Real.pi / 180) / 2) =
      -Real.sin ((lat1 - lat2) * (Real.pi / 180) / 2) := by
    rw [show (lat2 - lat1) * (Real.pi / 180) / 2 =
      -((lat1 - lat2) * (Real.pi / 180) / 2) by ring, Real.sin_neg]
  have h2 : Real.sin ((lon2 - lon1) * (Real.pi / 180) / 2) =
      -Real.sin ((lon1 - lon2) * (Real.pi / 180) / 2) := by
    rw [show (lon2 - lon1) * (Real.pi / 180) / 2 =
      -((lon1 - lon2) * (Real.pi / 180) / 2) by ring, Real.sin_neg]
  rw [h1, h2]
  ring

/-- The Haversine intermediate value vanishes for identical points. -/
theorem haversineA_self (lat lon : ℝ) : haversineA lat lon lat lon = 0 := by
  unfold haversineA deg2rad
  simp

/-- Claim C8: `calculateDistance` is symmetric in its two coordinate pairs
and yields 0 for identical points; the embedded definition uses Earth radius
6371 km and converts all angles from degrees to radians via `deg2rad`. -/
theorem calculateDistance_symm_and_self (lat1 lon1 lat2 lon2 : ℝ) :
    calculateDistance lat1 lon1 lat2 lon2 =
      calculateDistance lat2 lon2 lat1 lon1 ∧
    calculateDistance lat1 lon1 lat1 lon1 = 0 := by
  constructor
  · unfold calculateDistance
    rw [haversineA_symm]
  · unfold calculateDistance
    rw [haversineA_self]
    simp [atan2, Real.arctan_zero]

/-- The category rule contributes exactly one reason iff its guard fires. -/
theorem length_categoryReasons (cats : List String) (d : Donation) :
    (categoryReasons cats d).length = if d.category ∈ cats then 1 else 0 := by
  unfold categoryReasons
  split_ifs <;> rfl

/-- The urgency rule contributes exactly one reason iff its guard fires. -/
theorem length_urgencyReasons (u : Option Urgency) (d : Donation) :
    (urgencyReasons u d).length =
      if u = some Urgency.high ∧ d.status = DStatus.urgent then 1 else 0 := by
  unfold urgencyReasons
  split_ifs <;> rfl

/-- The location rule contributes exactly one reason iff its guard fires. -/
theorem length_locationReasons (loc : Option GeoPoint) (maxD : Option ℚ)
    (d : Donation) :
    (locationReasons loc maxD d).length =
      if (locationHit loc maxD d).isSome then 1 else 0 := by
  unfold locationReasons
  cases h : locationHit loc maxD d with
  | none => simp [h]
  | some p =>
    obtain ⟨dist, mx⟩ := p
    simp [h]

/-- The recency rule contributes exactly one reason iff its guard fires. -/
theorem length_recencyReasons (now : ℚ) (d : Donation) :
    (recencyReasons now d).length =
      if (now - d.date) / msPerDay ≤ 7 then 1 else 0 := by
  unfold recencyReasons
  split_ifs <;> rfl

/-- Claim C7 counterexample: at `now` exactly seven days after the listing
date, the recency rule's contribution rounds to 0, yet the returned result
still carries the `"Recently listed donation"` reason string — refuting the
claim that a rule contributing 0 adds no reason. -/
theorem zero_contribution_reason_counterexample :
    mBoundary ∈ findMatchesForRecipient needsHigh sevenDaysMs [dDisaster] ∧
    recencyScore sevenDaysMs dDisaster = 0 ∧
    "Recently listed donation" ∈ mBoundary.matchReason := by
  have hq : (sevenDaysMs - dDisaster.date) / msPerDay = 7 := by
    rw [show dDisaster.date = 0 from rfl, sevenDaysMs, msPerDay]
    norm_num
  have hrec : recencyScore sevenDaysMs dDisaster = 0 :=
    recencyScore_eval sevenDaysMs dDisaster 7 0 hq (by norm_num) (by norm_num)
  have hreas : recencyReasons sevenDaysMs dDisaster =
      ["Recently listed donation"] := by
    unfold recencyReasons
    rw [hq, if_pos (by norm_num : (7 : ℚ) ≤ 7)]
  have hscore : scoreDonationForRecipient needsHigh sevenDaysMs dDisaster =
      mBoundary := by
    simp [scoreDonationForRecipient, categoryScore, categoryReasons,
      urgencyScore, urgencyReasons, locationScore, locationReasons,
      locationHit, dDisaster, needsHigh, mBoundary]
    exact ⟨hrec, hreas⟩
  refine ⟨?_, hrec, ?_⟩
  · have : findMatchesForRecipient needsHigh sevenDaysMs [dDisaster] =
        [mBoundary] := by
      simp [findMatchesForRecipient, hscore, mBoundary, List.insertionSort,
        List.orderedInsert]
    rw [this]
    exact List.mem_singleton.mpr rfl
  · simp [mBoundary]

/-- Claim C7 (amended): every returned result carries exactly one reason
string per scoring rule whose guard condition fired — even when the rounded
contribution of a fired rule is 0 (e.g. `daysSince` exactly 7) — and the
recency reason is present iff the recency guard fired; a rule whose guard did
not fire (e.g. distance beyond the max) contributes no reason. -/
theorem match_reasons_one_per_fired_rule :
    (∀ (needs : UserNeedsPreferences) (now : ℚ) (candidates : List Donation)
      (m : MatchResult), m ∈ findMatchesForRecipient needs now candidates →
      ∃ d, d ∈ candidates ∧ scoreDonationForRecipient needs now d = m ∧
        m.matchReason.length =
          ((if d.category ∈ needs.categories then 1 else 0) +
            (if needs.urgency = some Urgency.high ∧
              d.status = DStatus.urgent then 1 else 0) +
            (if (locationHit needs.location needs.maxDistance d).isSome
              then 1 else 0) +
            (if (now - d.date) / msPerDay ≤ 7 then 1 else 0)) ∧
        ("Recently listed donation" ∈ m.matchReason ↔
          (now - d.date) / msPerDay ≤ 7)) ∧
    (∀ (store : List Donation) (donationId : String)
      (prefs : List UserNeedsPreferences) (m : MatchResult),
      m ∈ findRecipientsForDonation store donationId prefs →
      ∃ don r, store.find? (fun d => d.id == donationId) = some don ∧
        r ∈ prefs ∧ scoreRecipientForDonation don r = m ∧
        m.matchReason.length =
          ((if don.category ∈ r.categories then 1 else 0) +
            (if r.urgency = some Urgency.high ∧
              don.status = DStatus.urgent then 1 else 0) +
            (if (locationHit r.location r.maxDistance don).isSome
              then 1 else 0))) := by
  constructor
  · intro needs now candidates m h
    obtain ⟨⟨d, hd, hm⟩, _⟩ := mem_findMatchesForRecipient.mp h
    refine ⟨d, hd, hm, ?_, ?_⟩
    · rw [← hm]
      show (categoryReasons needs.categories d ++
        urgencyReasons needs.urgency d ++
        locationReasons needs.location needs.maxDistance d ++
        recencyReasons now d).length = _
      simp only [List.length_append, length_categoryReasons,
        length_urgencyReasons, length_locationReasons, length_recencyReasons]
    · rw [← hm]
      constructor
      · intro hmem
        show (now - d.date) / msPerDay ≤ 7
        have hmem2 : "Recently listed donation" ∈
            categoryReasons needs.categories d ++
            urgencyReasons needs.urgency d ++
            locationReasons needs.location needs.maxDistance d ++
            recencyReasons now d := hmem
        simp only [List.mem_append] at hmem2
        rcases hmem2 with ((hc | hu) | hl) | hr
        · exact absurd hc (recently_notin_categoryReasons _ _)
        · exact absurd hu (recently_notin_urgencyReasons _ _)
        · exact absurd hl (recently_notin_locationReasons _ _ _)
        · rw [recencyReasons] at hr
          by_cases hcond : (now - d.date) / msPerDay ≤ 7
          · exact hcond
          · rw [if_neg hcond] at hr
            simp at hr
      · intro hcond
        show "Recently listed donation" ∈
          categoryReasons needs.categories d ++
          urgencyReasons needs.urgency d ++
          locationReasons needs.location needs.maxDistance d ++
          recencyReasons now d
        have : "Recently listed donation" ∈ recencyReasons now d := by
          rw [recencyReasons, if_pos hcond]
          exact List.mem_singleton.mpr rfl
        simp [List.mem_append, this]
  · intro store donationId prefs m h
    obtain ⟨don, hf, ⟨r, hr, hm⟩, _⟩ := mem_findRecipientsForDonation.mp h
    refine ⟨don, r, hf, hr, hm, ?_⟩
    rw [← hm]
    show (categoryReasons r.categories don ++ urgencyReasons r.urgency don ++
      locationReasons r.location r.maxDistance don).length = _
    simp only [List.length_append, length_categoryReasons,
      length_urgencyReasons, length_locationReasons]

/-- Witness for the amended C7 at a concrete input in each direction. -/
theorem match_reasons_one_per_fired_rule_witness :
    (mW ∈ findMatchesForRecipient needsHigh 0 [dDisaster] ∧
      ∃ d, d ∈ [dDisaster] ∧ scoreDonationForRecipient needsHigh 0 d = mW ∧
        mW.matchReason.length =
          ((if d.category ∈ needsHigh.categories then 1 else 0) +
            (if needsHigh.urgency = some Urgency.high ∧
              d.status = DStatus.urgent then 1 else 0) +
            (if (locationHit needsHigh.location needsHigh.maxDistance d).isSome
              then 1 else 0) +
            (if (0 - d.date) / msPerDay ≤ 7 then 1 else 0)) ∧
        ("Recently listed donation" ∈ mW.matchReason ↔
          (0 - d.date) / msPerDay ≤ 7)) ∧
    (mS ∈ findRecipientsForDonation [dDisaster] "d1" [needsHigh] ∧
      ∃ don r, List.find? (fun d => d.id == "d1") [dDisaster] = some don ∧
        r ∈ [needsHigh] ∧ scoreRecipientForDonation don r = mS ∧
        mS.matchReason.length =
          ((if don.category ∈ r.categories then 1 else 0) +
            (if r.urgency = some Urgency.high ∧
              don.status = DStatus.urgent then 1 else 0) +
            (if (locationHit r.location r.maxDistance don).isSome
              then 1 else 0))) := by
  have h1 : mW ∈ findMatchesForRecipient needsHigh 0 [dDisaster] := by
    rw [eval_findMatches_concrete]
    exact List.mem_singleton.mpr rfl
  have h2 : mS ∈ findRecipientsForDonation [dDisaster] "d1" [needsHigh] := by
    rw [eval_findRecipients_concrete]
    exact List.mem_singleton.mpr rfl
  exact ⟨⟨h1, match_reasons_one_per_fired_rule.1 needsHigh 0 [dDisaster] mW h1⟩,
    ⟨h2, match_reasons_one_per_fired_rule.2 [dDisaster] "d1" [needsHigh]
      mS h2⟩⟩
